import Mathlib

/-!
Verification of the convergence-controller logic of the charm-ceph-nfs
repository (src/charm.py), shallowly embedded in Lean 4.

Each event handler of `CephNfsCharm` is translated into a pure function
from an environment (the outcomes of the external calls the handler would
make: subprocess exit statuses, leadership, fact availability) and the
node-local state (`StoredState` flags, peer facts) to a `HandlerOut`
record carrying the handler's outcome (normal return, `event.defer()`, or
an uncaught exception), the updated state, the ordered list of external
calls issued, and the log lines emitted.
-/

/-- The durable node-local flags of `CephNfsCharm._stored`
(`is_started`, `is_cluster_setup`), defaulted to `false/false` in
`__init__`. -/
structure Stored where
  is_started : Bool
  is_cluster_setup : Bool
deriving DecidableEq, Repr

/-- The cluster-wide peer facts (`pool_initialised` latch and
`reload_nonce` counter) carried by the `interface_ceph_nfs_peer`
relation. -/
structure PeerState where
  pool_initialised : Bool
  reload_nonce : Nat
deriving DecidableEq, Repr

/-- Environment of one handler run: the facts visible to the charm and the
outcome each external call would have if issued. `grace_add_ok = false`
means `ganesha-rados-grace ... add` would exit non-zero, and so on. -/
structure Env where
  broker_available : Bool
  pools_available : Bool
  is_leader : Bool
  bluestore_ok : Bool
  grace_add_ok : Bool
  grace_remove_ok : Bool
  put_index_ok : Bool
  put_counter_ok : Bool
  render_changed : Bool
  restart_ok : Bool
  has_hacluster : Bool
  vip : String
  ingress_address : String
  hostname : String
  export_path : String
deriving DecidableEq, Repr

/-- External calls a handler can issue, in program order.
`putObject name content` stands for `rados ... put name <file>`; the
index object is written from `/dev/null` (empty content), the counter
object from a temp file holding the ASCII text of the seed. -/
inductive Call where
  | createPool
  | requestPermissions
  | graceAdd (host : String)
  | graceRemove (host : String)
  | putObject (objectName : String) (content : String)
  | systemctlRestart (service : String)
  | killallHup (process : String)
  | renderConfigs
  | createShare (size : Option Nat)
  | triggerReload
deriving DecidableEq, Repr

/-- Log severity of the `logging` calls in the handlers. -/
inductive LogLevel where
  | info
  | warning
  | error
deriving DecidableEq, Repr

/-- One emitted log line. -/
structure LogEntry where
  level : LogLevel
  msg : String
deriving DecidableEq, Repr

/-- How a handler run ends: normal return, `event.defer()` before
returning, or an exception escaping the handler (Python
`subprocess.CalledProcessError` from an unguarded `check_call`). -/
inductive Outcome where
  | ok
  | deferred
  | raised (msg : String)
deriving DecidableEq, Repr

/-- Result of one handler run. -/
structure HandlerOut where
  outcome : Outcome
  stored : Stored
  peers : PeerState
  calls : List Call
  logs : List LogEntry
deriving DecidableEq, Repr

/-- `CephNfsCharm.request_ceph_pool`: returns without deferring when the
broker is unavailable (info log only); aborts with a warning when
`get_bluestore_compression` raises `ValueError`; otherwise requests the
replicated pool and the ceph permissions. -/
def request_ceph_pool (env : Env) (st : Stored) (peers : PeerState) : HandlerOut :=
  if !env.broker_available then
    { outcome := .ok, stored := st, peers := peers, calls := [],
      logs := [⟨.info, "Cannot request ceph setup at this time"⟩] }
  else if !env.bluestore_ok then
    { outcome := .ok, stored := st, peers := peers, calls := [],
      logs := [⟨.warning, "Caught ValueError, invalid value provided for configuration?"⟩] }
  else
    { outcome := .ok, stored := st, peers := peers,
      calls := [.createPool, .requestPermissions],
      logs := [⟨.info, "Requesting replicated pool"⟩, ⟨.info, "Requesting permissions"⟩] }

/-- `CephNfsCharm.render_config`: defers when `pools_available` is false;
otherwise renders the config files under `restart_on_change`, which
restarts `nfs-ganesha` when any tracked file changed. A failing restart
raises out of the handler (no try/except), so `is_started` is set only
after a fully successful render pass. -/
def render_config (env : Env) (st : Stored) (peers : PeerState) : HandlerOut :=
  if !env.pools_available then
    { outcome := .deferred, stored := st, peers := peers, calls := [],
      logs := [⟨.info, "Defering setup"⟩] }
  else if env.render_changed && !env.restart_ok then
    { outcome := .raised "CalledProcessError", stored := st, peers := peers,
      calls := [.renderConfigs, .systemctlRestart "nfs-ganesha"],
      logs := [⟨.info, "Rendering config"⟩] }
  else
    { outcome := .ok, stored := { st with is_started := true }, peers := peers,
      calls := [.renderConfigs] ++
        (if env.render_changed then [Call.systemctlRestart "nfs-ganesha"] else []),
      logs := [⟨.info, "Rendering config"⟩, ⟨.info, "Setting started state"⟩,
               ⟨.info, "on_pools_available: status updated"⟩] }

/-- `CephNfsCharm.on_departing`: unconditionally runs
`ganesha-rados-grace ... remove <hostname>` via `check_call` (no
try/except, no logging), then clears `is_cluster_setup`. A failing
removal raises before the flag assignment is reached. -/
def on_departing (env : Env) (st : Stored) (peers : PeerState) : HandlerOut :=
  if env.grace_remove_ok then
    { outcome := .ok, stored := { st with is_cluster_setup := false }, peers := peers,
      calls := [.graceRemove env.hostname], logs := [] }
  else
    { outcome := .raised "CalledProcessError", stored := st, peers := peers,
      calls := [.graceRemove env.hostname], logs := [] }

/-- The grace-join phase of `CephNfsCharm.setup_ganesha` (lines 284-289):
guarded by `is_cluster_setup`; a failing `ganesha-rados-grace ... add`
raises out of the handler before the flag is set. Returns (outcome,
updated stored flags, calls issued). -/
def grace_join (env : Env) (st : Stored) : Outcome × Stored × List Call :=
  if st.is_cluster_setup then (.ok, st, [])
  else if env.grace_add_ok then
    (.ok, { st with is_cluster_setup := true }, [.graceAdd env.hostname])
  else
    (.raised "CalledProcessError", st, [.graceAdd env.hostname])

/-- The leader-bootstrap phase of `CephNfsCharm.setup_ganesha` (lines
290-313): non-leaders return immediately; the leader writes the empty
`ganesha-export-index` object, then the `ganesha-export-counter` object
seeded with the ASCII text `1000`, and on success publishes the
`pool_initialised` latch. Any `CalledProcessError` from the two puts is
caught, logged, and the event is deferred.

The effect of `self.peers.initialised_pool()` is modelled from the spec:
`interface_ceph_nfs_peer` is not under src/; per the spec it sets the
one-way `pool_initialised` latch. -/
def bootstrap (env : Env) (st : Stored) (peers : PeerState) : HandlerOut :=
  if !env.is_leader then
    { outcome := .ok, stored := st, peers := peers, calls := [], logs := [] }
  else if !env.put_index_ok then
    { outcome := .deferred, stored := st, peers := peers,
      calls := [.putObject "ganesha-export-index" ""],
      logs := [⟨.error, "Failed to setup ganesha index object"⟩] }
  else if !env.put_counter_ok then
    { outcome := .deferred, stored := st, peers := peers,
      calls := [.putObject "ganesha-export-index" "",
                .putObject "ganesha-export-counter" "1000"],
      logs := [⟨.error, "Failed to setup ganesha index object"⟩] }
  else
    { outcome := .ok, stored := st,
      peers := { peers with pool_initialised := true },
      calls := [.putObject "ganesha-export-index" "",
                .putObject "ganesha-export-counter" "1000"],
      logs := [] }

/-- `CephNfsCharm.setup_ganesha`: the grace-join phase followed, when it
does not raise, by the leader-bootstrap phase. -/
def setup_ganesha (env : Env) (st : Stored) (peers : PeerState) : HandlerOut :=
  match grace_join env st with
  | (Outcome.ok, st1, cs) =>
      let b := bootstrap env st1 peers
      { b with calls := cs ++ b.calls }
  | (o, st1, cs) =>
      { outcome := o, stored := st1, peers := peers, calls := cs, logs := [] }

/-- `CephNfsCharm.on_pool_initialised`: restarts `nfs-ganesha`; a failing
restart is caught, logged as an error, and the event is deferred. -/
def on_pool_initialised (env : Env) (st : Stored) (peers : PeerState) : HandlerOut :=
  if env.restart_ok then
    { outcome := .ok, stored := st, peers := peers,
      calls := [.systemctlRestart "nfs-ganesha"], logs := [] }
  else
    { outcome := .deferred, stored := st, peers := peers,
      calls := [.systemctlRestart "nfs-ganesha"],
      logs := [⟨.error, "Failed torestart nfs-ganesha"⟩] }

/-- `CephNfsCharm.on_reload_nonce`: sends SIGHUP to `ganesha.nfsd` via
`subprocess.call` (exit status ignored). No config re-render, no
restart, no state change. -/
def on_reload_nonce (st : Stored) (peers : PeerState) : HandlerOut :=
  { outcome := .ok, stored := st, peers := peers,
    calls := [.killallHup "ganesha.nfsd"],
    logs := [⟨.info, "Reloading Ganesha after nonce triggered reload"⟩] }

/-- `CephNfsCharm.access_address`: the configured `vip` when the
`hacluster` relation is present, else the `public` binding's ingress
address. -/
def access_address (env : Env) : String :=
  if env.has_hacluster then env.vip else env.ingress_address

/-- Result of the `create-share` action: `event.fail(msg)` or
`event.set_results({message, path, ip})`. -/
inductive ActionOut where
  | failure (msg : String)
  | results (message : String) (path : String) (ip : String)
deriving DecidableEq, Repr

/-- `CephNfsCharm.create_share_action`: non-leaders are refused with
`event.fail` before any external call; the leader creates the share,
triggers the cluster reload nonce, and reports message, export path and
advertised address.

`GaneshaNfs.create_share` (ganesha.py) and `peers.trigger_reload()`
(interface_ceph_nfs_peer) are not under src/; they are modelled from the
spec as returning the export path and bumping the shared reload nonce. -/
def create_share_action (env : Env) (size : Option Nat) (st : Stored) (peers : PeerState) :
    ActionOut × Stored × PeerState × List Call :=
  if !env.is_leader then
    (.failure "Share creation needs to be run from the application leader", st, peers, [])
  else
    (.results "Share created" env.export_path (access_address env),
     st,
     { peers with reload_nonce := peers.reload_nonce + 1 },
     [.createShare size, .triggerReload])

/-- A fully healthy environment: all facts available, leader, every
external call succeeds. -/
def envAllOk : Env :=
  { broker_available := true, pools_available := true, is_leader := true,
    bluestore_ok := true, grace_add_ok := true, grace_remove_ok := true,
    put_index_ok := true, put_counter_ok := true, render_changed := true,
    restart_ok := true, has_hacluster := false, vip := "10.0.0.100",
    ingress_address := "10.0.0.5", hostname := "node-0",
    export_path := "/volumes/_nogroup/share-1" }

/-- Claim C1 counterexample: with the `pool_initialised` latch already
true, a `pools_available` fact still makes the leader attempt the
bootstrap index write — `setup_ganesha` never consults the latch, so
bootstrap is not "skipped entirely when the latch is already true". -/
theorem C1_counterexample :
    (PeerState.mk true 0).pool_initialised = true ∧
    Call.putObject "ganesha-export-index" "" ∈
      (setup_ganesha envAllOk (Stored.mk true true) (PeerState.mk true 0)).calls := by
  decide

/-- Claim C1 (amended): `setup_ganesha` does not read the
`pool_initialised` latch at all — its outcome and its external calls are
identical for any two latch values; the bootstrap writes are guarded only
by leadership, so a non-leader never attempts them, while the leader
re-attempts them on every delivered `pools_available` fact even after the
latch is true. -/
theorem C1_amended (env : Env) (st : Stored) (p q : PeerState) :
    (setup_ganesha env st p).calls = (setup_ganesha env st q).calls ∧
    (setup_ganesha env st p).outcome = (setup_ganesha env st q).outcome ∧
    (env.is_leader = false →
      Call.putObject "ganesha-export-index" "" ∉ (setup_ganesha env st p).calls) := by
  unfold setup_ganesha grace_join bootstrap
  cases h1 : st.is_cluster_setup <;> cases h2 : env.grace_add_ok <;>
    cases h3 : env.is_leader <;> cases h4 : env.put_index_ok <;>
    cases h5 : env.put_counter_ok <;> simp_all

/-- Claim C1 witness: instantiating the amended theorem at a concrete
non-leader environment. -/
theorem C1_amended_witness :
    (setup_ganesha { envAllOk with is_leader := false } (Stored.mk false false)
        (PeerState.mk false 0)).calls =
      (setup_ganesha { envAllOk with is_leader := false } (Stored.mk false false)
        (PeerState.mk true 7)).calls ∧
    (setup_ganesha { envAllOk with is_leader := false } (Stored.mk false false)
        (PeerState.mk false 0)).outcome =
      (setup_ganesha { envAllOk with is_leader := false } (Stored.mk false false)
        (PeerState.mk true 7)).outcome ∧
    ({ envAllOk with is_leader := false } : Env).is_leader = false →
      Call.putObject "ganesha-export-index" "" ∉
        (setup_ganesha { envAllOk with is_leader := false } (Stored.mk false false)
          (PeerState.mk false 0)).calls :=
  fun _ =>
    (C1_amended { envAllOk with is_leader := false } (Stored.mk false false)
      (PeerState.mk false 0) (PeerState.mk true 7)).2.2 rfl

/-- Claim C2 counterexample: when the grace-removal call fails,
`on_departing` raises out of the handler before the flag assignment, so
`is_cluster_setup` stays `true` — contradicting "afterwards
is_cluster_setup is false ... when it fails". -/
theorem C2_counterexample :
    (on_departing { envAllOk with grace_remove_ok := false }
        (Stored.mk true true) (PeerState.mk true 0)).stored.is_cluster_setup = true ∧
    (on_departing { envAllOk with grace_remove_ok := false }
        (Stored.mk true true) (PeerState.mk true 0)).outcome
      = Outcome.raised "CalledProcessError" := by
  decide

/-- Claim C2 (amended): a departing-node fact always attempts the
grace-removal call regardless of `is_cluster_setup`; if removal succeeds
the flag is cleared to false, but if removal fails the
`CalledProcessError` propagates uncaught and `is_cluster_setup` is left
unchanged — the flag is cleared only on success, and the failure is not
logged or deferred by the handler. -/
theorem C2_amended (env : Env) (st : Stored) (p : PeerState) :
    Call.graceRemove env.hostname ∈ (on_departing env st p).calls ∧
    (env.grace_remove_ok = true →
      (on_departing env st p).stored.is_cluster_setup = false ∧
      (on_departing env st p).outcome = Outcome.ok) ∧
    (env.grace_remove_ok = false →
      (on_departing env st p).outcome = Outcome.raised "CalledProcessError" ∧
      (on_departing env st p).stored = st) := by
  unfold on_departing
  cases h : env.grace_remove_ok <;> simp_all

/-- Claim C2 witness: the amended theorem at a concrete departing node
whose removal call fails. -/
theorem C2_amended_witness :
    Call.graceRemove ({ envAllOk with grace_remove_ok := false } : Env).hostname ∈
      (on_departing { envAllOk with grace_remove_ok := false }
        (Stored.mk true true) (PeerState.mk true 0)).calls ∧
    (({ envAllOk with grace_remove_ok := false } : Env).grace_remove_ok = false →
      (on_departing { envAllOk with grace_remove_ok := false }
        (Stored.mk true true) (PeerState.mk true 0)).outcome
          = Outcome.raised "CalledProcessError" ∧
      (on_departing { envAllOk with grace_remove_ok := false }
        (Stored.mk true true) (PeerState.mk true 0)).stored = Stored.mk true true) :=
  ⟨(C2_amended { envAllOk with grace_remove_ok := false }
      (Stored.mk true true) (PeerState.mk true 0)).1,
   fun _ => (C2_amended { envAllOk with grace_remove_ok := false }
      (Stored.mk true true) (PeerState.mk true 0)).2.2 rfl⟩

/-- Claim C3 counterexample: with `is_cluster_setup = false` and a
failing grace-add, `setup_ganesha` lets the `CalledProcessError`
propagate — the triggering fact is not deferred, contradicting "a failed
join call ... defers the triggering fact for retry". -/
theorem C3_counterexample :
    (setup_ganesha { envAllOk with grace_add_ok := false }
        (Stored.mk false false) (PeerState.mk false 0)).outcome
      = Outcome.raised "CalledProcessError" ∧
    (setup_ganesha { envAllOk with grace_add_ok := false }
        (Stored.mk false false) (PeerState.mk false 0)).outcome
      ≠ Outcome.deferred := by
  decide

/-- Claim C3 (amended): grace join is idempotent and flag-safe — if
`is_cluster_setup` is already true no join call is made; a successful
join sets the flag; a failed join leaves the flag false and the exception
propagates out of the handler (the fact is not deferred by the handler;
redelivery comes from the runtime re-running the failed hook), so join
failure never leaves the flag set. -/
theorem C3_amended (env : Env) (st : Stored) (p : PeerState) :
    (st.is_cluster_setup = true →
      Call.graceAdd env.hostname ∉ (setup_ganesha env st p).calls) ∧
    (st.is_cluster_setup = false → env.grace_add_ok = true →
      (setup_ganesha env st p).stored.is_cluster_setup = true ∧
      Call.graceAdd env.hostname ∈ (setup_ganesha env st p).calls) ∧
    (st.is_cluster_setup = false → env.grace_add_ok = false →
      (setup_ganesha env st p).stored.is_cluster_setup = false ∧
      (setup_ganesha env st p).outcome = Outcome.raised "CalledProcessError") := by
  unfold setup_ganesha grace_join bootstrap
  cases h1 : st.is_cluster_setup <;> cases h2 : env.grace_add_ok <;>
    cases h3 : env.is_leader <;> cases h4 : env.put_index_ok <;>
    cases h5 : env.put_counter_ok <;> simp_all

/-- Claim C3 witness: the amended theorem at a concrete node with the
flag unset and a succeeding join call. -/
theorem C3_amended_witness :
    ((Stored.mk false false).is_cluster_setup = false → envAllOk.grace_add_ok = true →
      (setup_ganesha envAllOk (Stored.mk false false)
          (PeerState.mk false 0)).stored.is_cluster_setup = true ∧
      Call.graceAdd envAllOk.hostname ∈
        (setup_ganesha envAllOk (Stored.mk false false) (PeerState.mk false 0)).calls) :=
  fun _ _ =>
    (C3_amended envAllOk (Stored.mk false false) (PeerState.mk false 0)).2.1 rfl rfl

/-- Claim C4: when the leader performs bootstrap (leadership held and the
grace phase not raising), the empty index object is written strictly
before the counter object; the counter is written with the ASCII decimal
seed `1000`; the counter put is issued only when the index put succeeded;
and the `pool_initialised` latch is published only when both writes
succeed (the peer state is untouched by any failing attempt). -/
theorem C4 (env : Env) (st : Stored) (p : PeerState)
    (hl : env.is_leader = true)
    (hj : st.is_cluster_setup = true ∨ env.grace_add_ok = true) :
    (env.put_index_ok = true → env.put_counter_ok = true →
      (setup_ganesha env st p).calls =
        (grace_join env st).2.2 ++
          [Call.putObject "ganesha-export-index" "",
           Call.putObject "ganesha-export-counter" "1000"] ∧
      (setup_ganesha env st p).peers.pool_initialised = true) ∧
    (env.put_index_ok = false →
      (setup_ganesha env st p).calls =
        (grace_join env st).2.2 ++ [Call.putObject "ganesha-export-index" ""] ∧
      (setup_ganesha env st p).peers = p) ∧
    (env.put_index_ok = true → env.put_counter_ok = false →
      (setup_ganesha env st p).calls =
        (grace_join env st).2.2 ++
          [Call.putObject "ganesha-export-index" "",
           Call.putObject "ganesha-export-counter" "1000"] ∧
      (setup_ganesha env st p).peers = p) := by
  unfold setup_ganesha grace_join bootstrap
  cases h1 : st.is_cluster_setup <;> cases h2 : env.grace_add_ok <;>
    cases h4 : env.put_index_ok <;> cases h5 : env.put_counter_ok <;> simp_all

/-- Claim C4 witness: the theorem at a healthy leader bootstrapping from
a fresh state. -/
theorem C4_witness :
    envAllOk.is_leader = true ∧
    ((Stored.mk false false).is_cluster_setup = true ∨ envAllOk.grace_add_ok = true) ∧
    (envAllOk.put_index_ok = true → envAllOk.put_counter_ok = true →
      (setup_ganesha envAllOk (Stored.mk false false) (PeerState.mk false 0)).calls =
        (grace_join envAllOk (Stored.mk false false)).2.2 ++
          [Call.putObject "ganesha-export-index" "",
           Call.putObject "ganesha-export-counter" "1000"] ∧
      (setup_ganesha envAllOk (Stored.mk false false)
          (PeerState.mk false 0)).peers.pool_initialised = true) :=
  ⟨rfl, Or.inr rfl,
   (C4 envAllOk (Stored.mk false false) (PeerState.mk false 0) rfl (Or.inr rfl)).1⟩

/-- Claim C5: if either bootstrap storage write fails on the leader, the
triggering fact is deferred, the `pool_initialised` latch is not set, and
the stored flags are exactly what the grace-join phase left them — the
failed bootstrap attempt itself modifies neither `is_started` nor
`is_cluster_setup`, so retry is safe. -/
theorem C5 (env : Env) (st : Stored) (p : PeerState)
    (hl : env.is_leader = true)
    (hj : st.is_cluster_setup = true ∨ env.grace_add_ok = true)
    (hw : env.put_index_ok = false ∨ env.put_counter_ok = false) :
    (setup_ganesha env st p).outcome = Outcome.deferred ∧
    (setup_ganesha env st p).peers = p ∧
    (setup_ganesha env st p).stored = (grace_join env st).2.1 ∧
    (setup_ganesha env st p).stored.is_started = st.is_started := by
  unfold setup_ganesha grace_join bootstrap
  cases h1 : st.is_cluster_setup <;> cases h2 : env.grace_add_ok <;>
    cases h4 : env.put_index_ok <;> cases h5 : env.put_counter_ok <;> simp_all

/-- Claim C5 witness: the theorem at a leader whose counter write fails
after a successful index write. -/
theorem C5_witness :
    (setup_ganesha { envAllOk with put_counter_ok := false }
        (Stored.mk false false) (PeerState.mk false 0)).outcome = Outcome.deferred ∧
    (setup_ganesha { envAllOk with put_counter_ok := false }
        (Stored.mk false false) (PeerState.mk false 0)).peers = PeerState.mk false 0 ∧
    (setup_ganesha { envAllOk with put_counter_ok := false }
        (Stored.mk false false) (PeerState.mk false 0)).stored =
      (grace_join { envAllOk with put_counter_ok := false } (Stored.mk false false)).2.1 ∧
    (setup_ganesha { envAllOk with put_counter_ok := false }
        (Stored.mk false false) (PeerState.mk false 0)).stored.is_started =
      (Stored.mk false false).is_started :=
  C5 { envAllOk with put_counter_ok := false } (Stored.mk false false)
    (PeerState.mk false 0) rfl (Or.inr rfl) (Or.inr rfl)

/-- Claim C6: `render_config` refuses to render while the pool fact is
unavailable — it defers the fact, leaving the stored flags (in particular
`is_started`) unchanged and issuing no call — and a render pass that
completes successfully sets `is_started` to true. -/
theorem C6 (env : Env) (st : Stored) (p : PeerState) :
    (env.pools_available = false →
      (render_config env st p).outcome = Outcome.deferred ∧
      (render_config env st p).stored = st ∧
      (render_config env st p).calls = []) ∧
    (env.pools_available = true →
      (env.render_changed = false ∨ env.restart_ok = true) →
      (render_config env st p).outcome = Outcome.ok ∧
      (render_config env st p).stored.is_started = true) := by
  unfold render_config
  cases h1 : env.pools_available <;> cases h2 : env.render_changed <;>
    cases h3 : env.restart_ok <;> simp_all

/-- Claim C6 witness: the theorem at a node with the pool unavailable and
at a node rendering successfully. -/
theorem C6_witness :
    (({ envAllOk with pools_available := false } : Env).pools_available = false →
      (render_config { envAllOk with pools_available := false }
          (Stored.mk false false) (PeerState.mk false 0)).outcome = Outcome.deferred ∧
      (render_config { envAllOk with pools_available := false }
          (Stored.mk false false) (PeerState.mk false 0)).stored = Stored.mk false false ∧
      (render_config { envAllOk with pools_available := false }
          (Stored.mk false false) (PeerState.mk false 0)).calls = []) ∧
    (envAllOk.pools_available = true →
      (envAllOk.render_changed = false ∨ envAllOk.restart_ok = true) →
      (render_config envAllOk (Stored.mk false false)
          (PeerState.mk false 0)).outcome = Outcome.ok ∧
      (render_config envAllOk (Stored.mk false false)
          (PeerState.mk false 0)).stored.is_started = true) :=
  ⟨(C6 { envAllOk with pools_available := false }
      (Stored.mk false false) (PeerState.mk false 0)).1,
   (C6 envAllOk (Stored.mk false false) (PeerState.mk false 0)).2⟩

/-- Claim C7 counterexample: the reload-nonce handler issues only the
SIGHUP signal — it performs no configuration re-render, contradicting
"re-renders its local configuration and signals its NFS server
process". -/
theorem C7_counterexample :
    Call.renderConfigs ∉
      (on_reload_nonce (Stored.mk true true) (PeerState.mk true 1)).calls ∧
    (on_reload_nonce (Stored.mk true true) (PeerState.mk true 1)).calls
      = [Call.killallHup "ganesha.nfsd"] := by
  decide

/-- Claim C7 (amended): on observing a reload-nonce change, every node
signals its NFS server process (`killall -HUP ganesha.nfsd`) to reload
its export table — a reload signal, not a service restart — and does
nothing else: no re-render, no restart call, no state change. -/
theorem C7_amended (st : Stored) (p : PeerState) :
    on_reload_nonce st p =
      { outcome := Outcome.ok, stored := st, peers := p,
        calls := [Call.killallHup "ganesha.nfsd"],
        logs := [⟨LogLevel.info, "Reloading Ganesha after nonce triggered reload"⟩] } := by
  unfold on_reload_nonce
  rfl

/-- Claim C8: `create_share_action` on a non-leader fails synchronously
with the explicit message, makes zero external calls, and mutates neither
the stored flags nor the peer state; on the leader it creates the share,
triggers the cluster-wide reload-nonce bump, and returns results carrying
the message "Share created", the export path, and the advertised
address. -/
theorem C8 (env : Env) (size : Option Nat) (st : Stored) (p : PeerState) :
    (env.is_leader = false →
      create_share_action env size st p =
        (ActionOut.failure "Share creation needs to be run from the application leader",
         st, p, [])) ∧
    (env.is_leader = true →
      create_share_action env size st p =
        (ActionOut.results "Share created" env.export_path (access_address env),
         st, { p with reload_nonce := p.reload_nonce + 1 },
         [Call.createShare size, Call.triggerReload])) := by
  unfold create_share_action
  cases h : env.is_leader <;> simp_all

/-- Claim C8 witness: the theorem at a concrete non-leader (refused, no
calls) and at the leader (results returned, nonce bumped). -/
theorem C8_witness :
    (({ envAllOk with is_leader := false } : Env).is_leader = false →
      create_share_action { envAllOk with is_leader := false } (some 10)
          (Stored.mk true true) (PeerState.mk true 3) =
        (ActionOut.failure "Share creation needs to be run from the application leader",
         Stored.mk true true, PeerState.mk true 3, [])) ∧
    (envAllOk.is_leader = true →
      create_share_action envAllOk (some 10) (Stored.mk true true) (PeerState.mk true 3) =
        (ActionOut.results "Share created" envAllOk.export_path (access_address envAllOk),
         Stored.mk true true, PeerState.mk true 4,
         [Call.createShare (some 10), Call.triggerReload])) :=
  ⟨(C8 { envAllOk with is_leader := false } (some 10)
      (Stored.mk true true) (PeerState.mk true 3)).1,
   (C8 envAllOk (some 10) (Stored.mk true true) (PeerState.mk true 3)).2⟩

/-- Claim C9 counterexample: `on_pool_initialised` catches a restart
failure and defers the fact for redelivery — restart failure is retried
via deferral in this handler, contradicting "never retried ... nor
deferred for redelivery, for every handler that issues a service
restart". -/
theorem C9_counterexample :
    (on_pool_initialised { envAllOk with restart_ok := false }
        (Stored.mk true true) (PeerState.mk true 0)).outcome = Outcome.deferred := by
  decide

/-- Claim C9 (amended): restart-failure handling differs by handler —
`render_config` lets a failing restart raise out of the handler as a
fatal error (undeferred, `is_started` untouched), while
`on_pool_initialised` catches the failure, logs an error, and defers the
fact for redelivery. -/
theorem C9_amended (env : Env) (st : Stored) (p : PeerState)
    (hr : env.restart_ok = false) :
    (env.pools_available = true → env.render_changed = true →
      (render_config env st p).outcome = Outcome.raised "CalledProcessError" ∧
      (render_config env st p).stored = st) ∧
    (on_pool_initialised env st p).outcome = Outcome.deferred ∧
    Call.systemctlRestart "nfs-ganesha" ∈ (on_pool_initialised env st p).calls := by
  unfold render_config on_pool_initialised
  cases h1 : env.pools_available <;> cases h2 : env.render_changed <;> simp_all

/-- Claim C9 witness: the amended theorem at a node whose restart command
fails. -/
theorem C9_witness :
    (({ envAllOk with restart_ok := false } : Env).pools_available = true →
      ({ envAllOk with restart_ok := false } : Env).render_changed = true →
      (render_config { envAllOk with restart_ok := false }
          (Stored.mk false false) (PeerState.mk false 0)).outcome
        = Outcome.raised "CalledProcessError" ∧
      (render_config { envAllOk with restart_ok := false }
          (Stored.mk false false) (PeerState.mk false 0)).stored
        = Stored.mk false false) ∧
    (on_pool_initialised { envAllOk with restart_ok := false }
        (Stored.mk false false) (PeerState.mk false 0)).outcome = Outcome.deferred ∧
    Call.systemctlRestart "nfs-ganesha" ∈
      (on_pool_initialised { envAllOk with restart_ok := false }
        (Stored.mk false false) (PeerState.mk false 0)).calls :=
  C9_amended { envAllOk with restart_ok := false }
    (Stored.mk false false) (PeerState.mk false 0) rfl

/-- Claim C10 counterexample: `request_ceph_pool` with the broker
unavailable returns normally (info log only) without deferring the fact —
a NotReady condition is dropped without deferral, contradicting "a
NotReady condition is never dropped without deferral". -/
theorem C10_counterexample :
    (request_ceph_pool { envAllOk with broker_available := false }
        (Stored.mk false false) (PeerState.mk false 0)).outcome = Outcome.ok ∧
    (request_ceph_pool { envAllOk with broker_available := false }
        (Stored.mk false false) (PeerState.mk false 0)).outcome ≠ Outcome.deferred ∧
    (request_ceph_pool { envAllOk with broker_available := false }
        (Stored.mk false false) (PeerState.mk false 0)).logs
      = [⟨LogLevel.info, "Cannot request ceph setup at this time"⟩] := by
  decide

/-- Claim C10 (amended): NotReady handling differs by handler —
`render_config` defers when the pool fact is unavailable, but
`request_ceph_pool` with the broker unavailable logs at info level and
returns without deferring and without external calls; in neither handler
is the NotReady condition logged as an error. -/
theorem C10_amended (env : Env) (st : Stored) (p : PeerState) :
    (env.pools_available = false →
      (render_config env st p).outcome = Outcome.deferred ∧
      ∀ l ∈ (render_config env st p).logs, l.level ≠ LogLevel.error) ∧
    (env.broker_available = false →
      (request_ceph_pool env st p).outcome = Outcome.ok ∧
      (request_ceph_pool env st p).outcome ≠ Outcome.deferred ∧
      (request_ceph_pool env st p).calls = [] ∧
      ∀ l ∈ (request_ceph_pool env st p).logs, l.level ≠ LogLevel.error) := by
  unfold render_config request_ceph_pool
  cases h1 : env.pools_available <;> cases h2 : env.broker_available <;> simp_all

/-- Claim C10 witness: the amended theorem at a node with neither the
broker nor the pool available. -/
theorem C10_witness :
    (({ envAllOk with broker_available := false, pools_available := false } :
        Env).pools_available = false →
      (render_config { envAllOk with broker_available := false, pools_available := false }
          (Stored.mk false false) (PeerState.mk false 0)).outcome = Outcome.deferred ∧
      ∀ l ∈ (render_config
          { envAllOk with broker_available := false, pools_available := false }
          (Stored.mk false false) (PeerState.mk false 0)).logs,
        l.level ≠ LogLevel.error) ∧
    (({ envAllOk with broker_available := false, pools_available := false } :
        Env).broker_available = false →
      (request_ceph_pool
          { envAllOk with broker_available := false, pools_available := false }
          (Stored.mk false false) (PeerState.mk false 0)).outcome = Outcome.ok ∧
      (request_ceph_pool
          { envAllOk with broker_available := false, pools_available := false }
          (Stored.mk false false) (PeerState.mk false 0)).outcome ≠ Outcome.deferred ∧
      (request_ceph_pool
          { envAllOk with broker_available := false, pools_available := false }
          (Stored.mk false false) (PeerState.mk false 0)).calls = [] ∧
      ∀ l ∈ (request_ceph_pool
          { envAllOk with broker_available := false, pools_available := false }
          (Stored.mk false false) (PeerState.mk false 0)).logs,
        l.level ≠ LogLevel.error) :=
  C10_amended { envAllOk with broker_available := false, pools_available := false }
    (Stored.mk false false) (PeerState.mk false 0)
